import Mathlib

/-!
Verification of the auto_gen content-generation pipeline.

The development shallowly embeds the Python modules `llm_prompt.py`,
`image_gen.py`, `video_gen.py`, `post_api.py` and `main.py`.  Effects are
made explicit:

* the file system is an association list from path strings to file
  contents (`FS`); `Path(...).expanduser().resolve()` is modelled by the
  identity `resolvePath`, paths in the model being already canonical;
* the process environment and the availability / behaviour of the external
  backends (OpenAI client, Kandinsky pipeline, Pillow, ffmpeg, the
  Facebook Graph endpoint) are gathered in an `Env` record, fixed for the
  duration of a call;
* Python exceptions are `Except PyError`;
* the dynamically-typed arguments that the code checks with `isinstance`
  are modelled by `PyVal` (a string, or some non-string value);
* parsed JSON bodies are `Json`, and the dictionaries that the posting
  layer returns are association lists from keys to `Json` values;
* functions that may hit the network additionally report whether a remote
  call was performed, so that the "no network call" clauses can be stated.
-/

/-- A Python value that is either a string or some non-string object;
used for the arguments that the code validates with `isinstance`. -/
inductive PyVal where
  | str (s : String)
  | nonStr
deriving DecidableEq

/-- A raised Python exception, by class. -/
inductive PyError where
  | valueError (msg : String)
  | typeError (msg : String)
deriving DecidableEq

/-- A parsed JSON value, as returned by `response.json()`.
Numbers are modelled as integers. -/
inductive Json where
  | null
  | bool (b : Bool)
  | num (n : Int)
  | str (s : String)
  | arr (xs : List Json)
  | obj (fields : List (String × Json))

/-- Python truthiness (`bool(x)`) of a JSON value. -/
def pyTruthy : Json → Bool
  | .null => false
  | .bool b => b
  | .num n => n != 0
  | .str s => s != ""
  | .arr xs => !xs.isEmpty
  | .obj fields => !fields.isEmpty

/-- Whether a JSON value is a boolean. -/
def jsonIsBool : Json → Bool
  | .bool _ => true
  | _ => false

/-- Whether a JSON value is a mapping (a JSON object). -/
def jsonIsObj : Json → Bool
  | .obj _ => true
  | _ => false

/-- A Python dict with JSON-valued entries, as built by `post_api.py`. -/
abbrev PyDict := List (String × Json)

/-- `d.get(key)`: first binding of `key` (dicts in the source are
duplicate-free, so first-match lookup agrees with Python). -/
def dictGet : PyDict → String → Option Json
  | [], _ => none
  | (k, v) :: rest, key => if k = key then some v else dictGet rest key

/-- `d.get(key, default)`. -/
def dictGetD (d : PyDict) (key : String) (dflt : Json) : Json :=
  (dictGet d key).getD dflt

/-- `d.setdefault(key, v)`: keep the dict if `key` is bound, otherwise
append the binding (Python appends new keys at the end). -/
def setdefault (d : PyDict) (key : String) (v : Json) : PyDict :=
  match dictGet d key with
  | some _ => d
  | none => d ++ [(key, v)]

/-- `bool(d.get(key))`: a missing key is `None`, which is falsy. -/
def pyTruthyOpt : Option Json → Bool
  | none => false
  | some j => pyTruthy j

/-- Contents of a file in the model.  Distinct renderings of the same
data keep distinct constructors so that byte-level identity of outputs is
equality of `FileContent` values. -/
inductive FileContent where
  /-- The 1x1 PNG decoded from the shared `PLACEHOLDER_PNG` base64
  literal of `image_gen.py` and `main.py`. -/
  | placeholderPng
  /-- The 1024x1024 canvas drawn by `image_gen._placeholder_image` when
  Pillow is available; the bytes are a pure function of the prompt and of
  whether the DejaVuSans font loads. -/
  | pillowPlaceholder (fontLoaded : Bool) (prompt : String)
  /-- A PNG produced by the Kandinsky pipeline for a prompt. -/
  | kandinskyImage (prompt : String)
  /-- The 1024x1024 canvas drawn by `main._fallback_image` when Pillow is
  available. -/
  | mainFallbackImage (fontLoaded : Bool) (text : String)
  /-- An mp4 actually encoded by ffmpeg from the given stills. -/
  | realVideo (images : List String)
  /-- A plain text file with the given contents. -/
  | text (s : String)
deriving DecidableEq

/-- The file system: an association list from (canonical) path strings to
file contents. -/
abbrev FS := List (String × FileContent)

/-- `Path(p).expanduser().resolve()`: paths in the model are already
canonical, so resolution is the identity. -/
def resolvePath (p : String) : String := p

/-- Content of the file at `p`, if it exists. -/
def fileContent : FS → String → Option FileContent
  | [], _ => none
  | (k, c) :: rest, p => if k = p then some c else fileContent rest p

/-- `Path(p).is_file()`. -/
def fileExists (fs : FS) (p : String) : Bool :=
  (fileContent fs p).isSome

/-- Write (create or overwrite) the file at `p`. -/
def fileWrite : FS → String → FileContent → FS
  | [], p, c => [(p, c)]
  | (k, v) :: rest, p, c =>
      if k = p then (p, c) :: rest else (k, v) :: fileWrite rest p c

/-- Python `str.strip()`: drop whitespace from both ends.  Defined by
structural recursion on the character list (ASCII whitespace, which is
what the strings in this code base contain). -/
def pyStrip (s : String) : String :=
  ⟨((s.data.dropWhile Char.isWhitespace).reverse.dropWhile
      Char.isWhitespace).reverse⟩

/-! ## Backend environment -/

/-- Behaviour of the OpenAI chat-completion backend, observed by
`llm_prompt.make_prompt` when a client exists. -/
inductive LLMOutcome where
  /-- `CLIENT.chat.completions.create` raised; caught by the broad
  `except` and turned into the fallback. -/
  | raises (msg : String)
  /-- The call returned a response object with the given list of choices;
  each choice may lack a `message`, and a message may lack a string
  `content` (`getattr(..., None)` returns `None` then). -/
  | response (choices : List (Option (Option PyVal)))

/-- Behaviour of the Kandinsky-3 image backend observed through
`image_gen._generate_with_kandinsky` / `_save_first_image`. -/
inductive KandinskyOutcome where
  /-- `get_T2I_pipeline` could not be imported (`None`). -/
  | unavailable
  /-- `get_T2I_pipeline(...)` raised. -/
  | constructionFails
  /-- `pipeline.generate_text2img(...)` raised. -/
  | invocationFails
  /-- The pipeline returned an empty image list
  (`_save_first_image` returns `None`). -/
  | noImages
  /-- `image.save(...)` raised (caught inside `_save_first_image`). -/
  | saveFails
  /-- The pipeline produced an image which was saved successfully. -/
  | producesImage
deriving DecidableEq

/-- Outcome of the one `requests.post` call in `post_to_facebook`. -/
inductive HttpOutcome where
  /-- Opening the image or the transport raised
  (`OSError` / `requests.RequestException`). -/
  | transportError (msg : String)
  /-- An HTTP response: status code, and either a parsed JSON body or the
  raw text of a body that `response.json()` rejects with `ValueError`. -/
  | response (status : Nat) (body : Except String Json)

/-- The process environment and external-backend behaviour, fixed for the
duration of a call. -/
structure Env where
  /-- `os.getenv("OPENAI_API_KEY")`. -/
  openaiApiKey : Option String
  /-- Whether `from openai import OpenAI` succeeded. -/
  openaiAvailable : Bool
  /-- Whether `OpenAI(api_key=...)` raises at client construction. -/
  openaiCtorFails : Bool
  /-- What the chat-completion call does, when a client exists. -/
  llmOutcome : LLMOutcome
  /-- `torch.cuda.is_available()` (the torch stub answers `false`). -/
  cudaAvailable : Bool
  /-- Whether Pillow (`PIL`) imported successfully. -/
  pillowAvailable : Bool
  /-- Whether `ImageFont.truetype("DejaVuSans.ttf", ...)` succeeds. -/
  fontLoaded : Bool
  /-- Behaviour of the Kandinsky backend. -/
  kandinsky : KandinskyOutcome
  /-- `shutil.which("ffmpeg")` finds the binary. -/
  ffmpegPresent : Bool
  /-- The ffmpeg subprocess exits with code 0. -/
  ffmpegSucceeds : Bool
  /-- `os.getenv("FB_PAGE_TOKEN")`. -/
  fbPageToken : Option String
  /-- Outcome of the one Graph-API upload attempt. -/
  fbHttp : HttpOutcome

/-! ## llm_prompt.py -/

/-- `llm_prompt.DEFAULT_FALLBACK`. -/
def DEFAULT_FALLBACK : String := "Test caption"

/-- `llm_prompt._create_client` followed by the module-level
`CLIENT = _create_client()`: `None` when the key is missing or empty,
when the `openai` import failed, or when construction raised; otherwise a
client whose completion call behaves as `env.llmOutcome`. -/
def CLIENT (env : Env) : Option LLMOutcome :=
  match env.openaiApiKey with
  | none => none
  | some apiKey =>
      if apiKey = "" then none
      else if !env.openaiAvailable then none
      else if env.openaiCtorFails then none
      else some env.llmOutcome

/-- `llm_prompt.make_prompt`.  Returns the produced caption together with
a flag recording whether a remote completion request was issued. -/
def make_prompt (env : Env) (topic : PyVal) : Except PyError (String × Bool) :=
  match topic with
  | .nonStr => .error (.typeError "Topic must be a string.")
  | .str t =>
      let normalizedTopic := pyStrip t
      if normalizedTopic = "" then .error (.valueError "Topic cannot be empty.")
      else
        match CLIENT env with
        | none => .ok (DEFAULT_FALLBACK, false)
        | some outcome =>
            match outcome with
            | .raises _ => .ok (DEFAULT_FALLBACK, true)
            | .response choices =>
                match choices with
                | [] => .ok (DEFAULT_FALLBACK, true)
                | choice :: _ =>
                    match choice with
                    | none => .ok (DEFAULT_FALLBACK, true)
                    | some message =>
                        match message with
                        | none => .ok (DEFAULT_FALLBACK, true)
                        | some (.nonStr) => .ok (DEFAULT_FALLBACK, true)
                        | some (.str content) =>
                            .ok (if pyStrip content = "" then DEFAULT_FALLBACK
                                 else pyStrip content, true)


/-! ## image_gen.py -/

/-- `image_gen._resolve_device`.  `torch.cuda` exists in both the real
library and the stub, so only `torch.cuda.is_available()` matters. -/
def resolve_device (env : Env) (requested : Option String) : String :=
  match requested with
  | none => if env.cudaAvailable then "cuda:0" else "cpu"
  | some r =>
      if r = "" ∨ r = "auto" then
        if env.cudaAvailable then "cuda:0" else "cpu"
      else if r ≠ "cpu" then
        if env.cudaAvailable then r else "cpu"
      else "cpu"

/-- `image_gen._placeholder_image`: without Pillow, write the decoded
`PLACEHOLDER_PNG` bytes; with Pillow, draw the 1024x1024 placeholder
canvas (a deterministic rendering of the prompt). -/
def placeholder_image (env : Env) (prompt : String) (output_path : String)
    (fs : FS) : String × FS :=
  if !env.pillowAvailable then
    (output_path, fileWrite fs output_path .placeholderPng)
  else
    (output_path, fileWrite fs output_path
      (.pillowPlaceholder env.fontLoaded prompt))

/-- `image_gen._generate_with_kandinsky` (with `_save_first_image`
inlined): `none` when the pipeline is missing, construction or invocation
raised, no image came back, or saving raised; otherwise the saved path. -/
def generate_with_kandinsky (env : Env) (prompt : String)
    (output_path : String) (_device : String) (fs : FS) : Option String × FS :=
  match env.kandinsky with
  | .unavailable => (none, fs)
  | .constructionFails => (none, fs)
  | .invocationFails => (none, fs)
  | .noImages => (none, fs)
  | .saveFails => (none, fs)
  | .producesImage =>
      (some output_path, fileWrite fs output_path (.kandinskyImage prompt))

/-- `image_gen.generate_image`.  Validation mirrors the source order:
prompt, output path, (after directory creation) device; then the
Kandinsky attempt, then the unconditional placeholder fallback. -/
def generate_image (env : Env) (prompt output_path : PyVal)
    (device : Option PyVal) (fs : FS) : Except PyError (String × FS) :=
  match prompt with
  | .nonStr => .error (.valueError "prompt must be a non-empty string.")
  | .str promptStr =>
      if pyStrip promptStr = "" then
        .error (.valueError "prompt must be a non-empty string.")
      else
        match output_path with
        | .nonStr => .error (.valueError "output_path must be a non-empty string path.")
        | .str outStr =>
            if pyStrip outStr = "" then
              .error (.valueError "output_path must be a non-empty string path.")
            else
              let output_file := resolvePath outStr
              match device with
              | some .nonStr =>
                  .error (.valueError "device must be a string identifier or None.")
              | none =>
                  let selected_device := resolve_device env none
                  match generate_with_kandinsky env promptStr output_file
                      selected_device fs with
                  | (some generated_path, fs1) => .ok (generated_path, fs1)
                  | (none, fs1) =>
                      .ok (placeholder_image env promptStr output_file fs1)
              | some (.str d) =>
                  let selected_device := resolve_device env (some d)
                  match generate_with_kandinsky env promptStr output_file
                      selected_device fs with
                  | (some generated_path, fs1) => .ok (generated_path, fs1)
                  | (none, fs1) =>
                      .ok (placeholder_image env promptStr output_file fs1)

/-! ## video_gen.py -/

/-- The placeholder text written by `video_gen._simulate_video`. -/
def simulatedVideoText (source_image : String) : String :=
  "Simulated video output. Install ffmpeg to generate real footage from the source image.\n"
    ++ "Source image: " ++ source_image ++ "\n"

/-- `video_gen._simulate_video`. -/
def simulate_video (fs : FS) (output_path : String) (source_image : String) :
    String × FS :=
  (output_path, fileWrite fs output_path (.text (simulatedVideoText source_image)))

/-- `video_gen.stitch_video`: validate the image list, then encode with
ffmpeg, substituting the simulated clip when the binary is absent or the
subprocess exits non-zero. -/
def stitch_video (env : Env) (images : List String) (output : String)
    (fs : FS) : Except PyError (String × FS) :=
  match images with
  | [] => .error (.valueError "images must contain at least one file path")
  | img0 :: rest =>
      let image_paths := (img0 :: rest).map resolvePath
      match image_paths.find? (fun p => !fileExists fs p) with
      | some missing =>
          .error (.valueError ("Image file not found: " ++ missing))
      | none =>
          let output_path := resolvePath output
          if !env.ffmpegPresent then
            .ok (simulate_video fs output_path (resolvePath img0))
          else if env.ffmpegSucceeds then
            .ok (output_path, fileWrite fs output_path (.realVideo image_paths))
          else
            .ok (simulate_video fs output_path (resolvePath img0))

/-! ## post_api.py -/

/-- `post_api._load_token`: `token.strip() if token else None`.  An unset
or empty variable gives `None`; a set one is stripped (so a whitespace
token becomes the empty string). -/
def load_token (envVar : Option String) : Option String :=
  match envVar with
  | none => none
  | some token => if token = "" then none else some (pyStrip token)

/-- The `if not access_token:` test in `post_to_facebook`: the token is
unusable when `_load_token` gave `None` or the empty string. -/
def tokenConfigured (accessToken : Option String) : Bool :=
  match accessToken with
  | none => false
  | some t => t != ""

/-- `post_api._simulate_post`. -/
def simulate_post (platform text image_path : String) : PyDict :=
  [("success", .bool true),
   ("simulated", .bool true),
   ("platform", .str platform),
   ("text", .str text),
   ("image_path", .str image_path)]

/-- Result of `post_to_facebook` together with a flag recording whether
the `requests.post` upload was attempted. -/
structure PostOut where
  result : PyDict
  networkCalled : Bool

/-- `post_api.post_to_facebook`: fail fast on a missing file, simulate on
a missing credential, otherwise upload once and interpret status and
JSON body as in the source. -/
def post_to_facebook (env : Env) (text image_path : String) (fs : FS) :
    PostOut :=
  let path_obj := image_path
  if !fileExists fs path_obj then
    { result := [("success", .bool false),
                 ("error", .str ("Image file not found at \x27" ++ image_path ++ "\x27."))],
      networkCalled := false }
  else
    let access_token := load_token env.fbPageToken
    if !tokenConfigured access_token then
      { result := simulate_post "facebook" text path_obj, networkCalled := false }
    else
      match env.fbHttp with
      | .transportError _ =>
          { result := simulate_post "facebook" text path_obj, networkCalled := true }
      | .response status body =>
          let payload : Json :=
            match body with
            | .ok j => j
            | .error rawText => .obj [("raw_response", .str rawText)]
          if status ≥ 400 then
            { result := simulate_post "facebook" text path_obj, networkCalled := true }
          else
            match payload with
            | .obj fields =>
                { result := setdefault fields "success" (.bool true),
                  networkCalled := true }
            | p =>
                { result := [("success", .bool false),
                             ("error", .str "Unexpected response format from Facebook API."),
                             ("response", p)],
                  networkCalled := true }

/-! ## main.py -/

/-- `main._fallback_image`: the orchestrator-local placeholder writer
(decoded `PLACEHOLDER_PNG` without Pillow, a drawn canvas with it). -/
def fallback_image (env : Env) (path : String) (text : String) (fs : FS) :
    String × FS :=
  if !env.pillowAvailable then
    (path, fileWrite fs path .placeholderPng)
  else
    (path, fileWrite fs path (.mainFallbackImage env.fontLoaded text))

/-- The aggregated record that `main.run` returns (the keys of the
`result` dict in the source). -/
structure PipelineResult where
  success : Bool
  topic : PyVal
  prompt : String
  image_path : String
  video_path : String
  facebook_response : PyDict
  error : Option Json

/-- The caption step of `main.run`: `prompt_text` starts as
`"Test caption"` and is replaced by `make_prompt(topic)` unless that
raises (the exception is logged and swallowed). -/
def run_prompt (env : Env) (topic : PyVal) : String :=
  match make_prompt env topic with
  | .ok (p, _) => p
  | .error _ => "Test caption"

/-- The image step of `main.run`: `generate_image(prompt_text, "out.png")`
with the default `device="auto"`, falling back to `main._fallback_image`
on an exception. -/
def run_image (env : Env) (prompt_text : String) (fs : FS) : String × FS :=
  match generate_image env (.str prompt_text) (.str "out.png")
      (some (.str "auto")) fs with
  | .ok pathFs => pathFs
  | .error _ => fallback_image env "out.png" prompt_text fs

/-- The video step of `main.run`: `stitch_video([image_path], "out.mp4")`,
writing the stitching-failure sentinel text on an exception. -/
def run_video (env : Env) (image_path : String) (fs : FS) : String × FS :=
  match stitch_video env [image_path] "out.mp4" fs with
  | .ok pathFs => pathFs
  | .error _ =>
      ("out.mp4", fileWrite fs "out.mp4"
        (.text "Simulated video output due to stitching failure."))

/-- `main.run`: caption, image, video, publish, then derive the overall
`success` (and the `error` field) from the publish response alone.  The
`try/except` around `post_to_facebook` never fires in the model because
the embedded `post_to_facebook` is total. -/
def run (env : Env) (topic : PyVal) (fs : FS) : PipelineResult × FS :=
  let prompt_text := run_prompt env topic
  let imageStep := run_image env prompt_text fs
  let image_path := imageStep.1
  let fs1 := imageStep.2
  let videoStep := run_video env image_path fs1
  let video_path := videoStep.1
  let fs2 := videoStep.2
  let facebook_response := (post_to_facebook env prompt_text image_path fs2).result
  let success := pyTruthyOpt (dictGet facebook_response "success")
  ({ success := success
     topic := topic
     prompt := prompt_text
     image_path := image_path
     video_path := video_path
     facebook_response := facebook_response
     error := if success then none
              else some (dictGetD facebook_response "error" (.str "Unknown error.")) },
   fs2)

/-! ## Concrete environments used in the closed theorems -/

/-- A fully offline environment: no credentials, no optional libraries,
no backends. -/
def envBare : Env :=
  { openaiApiKey := none, openaiAvailable := false, openaiCtorFails := false,
    llmOutcome := .raises "offline", cudaAvailable := false,
    pillowAvailable := false, fontLoaded := false, kandinsky := .unavailable,
    ffmpegPresent := false, ffmpegSucceeds := false, fbPageToken := none,
    fbHttp := .transportError "offline" }

/-- Offline except for a configured publish token; the Graph API answers
200 with the mapping body `{"success": 1}`. -/
def envSuccessNum : Env :=
  { envBare with
    fbPageToken := some "token",
    fbHttp := .response 200 (.ok (.obj [("success", .num 1)])) }

/-- Offline except for a configured publish token; the Graph API answers
200 with the mapping body `{"success": "no"}`. -/
def envSuccessStr : Env :=
  { envBare with
    fbPageToken := some "token",
    fbHttp := .response 200 (.ok (.obj [("success", .str "no")])) }

/-- Offline except for a configured publish token; the Graph API answers
200 with the mapping body `{"success": false}`. -/
def envSuccessFalse : Env :=
  { envBare with
    fbPageToken := some "token",
    fbHttp := .response 200 (.ok (.obj [("success", .bool false)])) }

/-- Offline except for a configured publish token; the Graph API answers
200 with the mapping body `{"id": 7}` (no `success` key). -/
def envPayloadId : Env :=
  { envBare with
    fbPageToken := some "token",
    fbHttp := .response 200 (.ok (.obj [("id", .num 7)])) }

/-! ## Helper lemmas -/

theorem fileContent_fileWrite_self (fs : FS) (p : String) (c : FileContent) :
    fileContent (fileWrite fs p c) p = some c := by
  induction fs with
  | nil => simp [fileWrite, fileContent]
  | cons kv rest ih =>
      obtain ⟨k, v⟩ := kv
      by_cases h : k = p <;> simp [fileWrite, fileContent, h, ih]

theorem fileExists_fileWrite_self (fs : FS) (p : String) (c : FileContent) :
    fileExists (fileWrite fs p c) p = true := by
  simp [fileExists, fileContent_fileWrite_self]

theorem fileContent_fileWrite_other (fs : FS) (p q : String) (c : FileContent)
    (hne : q ≠ p) : fileContent (fileWrite fs p c) q = fileContent fs q := by
  have hpq : ¬ p = q := fun h => hne h.symm
  induction fs with
  | nil => simp [fileWrite, fileContent, hpq]
  | cons kv rest ih =>
      obtain ⟨k, v⟩ := kv
      by_cases hk : k = p
      · simp [fileWrite, fileContent, hk, hpq]
      · by_cases hq : k = q <;> simp [fileWrite, fileContent, hk, hq, hne, ih]

theorem fileExists_fileWrite_mono (fs : FS) (p q : String) (c : FileContent)
    (h : fileExists fs q = true) : fileExists (fileWrite fs p c) q = true := by
  by_cases hq : q = p
  · subst hq; exact fileExists_fileWrite_self fs q c
  · simpa [fileExists, fileContent_fileWrite_other fs p q c hq] using h

theorem dictGet_append_none (d : PyDict) (k : String) (v : Json)
    (h : dictGet d k = none) : dictGet (d ++ [(k, v)]) k = some v := by
  induction d with
  | nil => simp [dictGet]
  | cons kv rest ih =>
      obtain ⟨k', v'⟩ := kv
      by_cases hk : k' = k
      · simp [dictGet, hk] at h
      · simp [dictGet, hk] at h ⊢
        exact ih h

theorem dictGet_setdefault (d : PyDict) (k : String) (v : Json) :
    ∃ w, dictGet (setdefault d k v) k = some w := by
  unfold setdefault
  cases h : dictGet d k with
  | some w => exact ⟨w, h⟩
  | none => exact ⟨v, dictGet_append_none d k v h⟩

theorem make_prompt_ok_ne_empty (env : Env) (topic : PyVal) (p : String)
    (b : Bool) (h : make_prompt env topic = .ok (p, b)) : ¬ p = "" := by
  cases topic with
  | nonStr => simp [make_prompt] at h
  | str t =>
      by_cases ht : pyStrip t = ""
      · simp [make_prompt, ht] at h
      · simp only [make_prompt, ht, reduceIte] at h
        repeat' split at h
        all_goals simp only [Except.ok.injEq, Prod.mk.injEq] at h
        all_goals obtain ⟨h1, -⟩ := h
        all_goals subst h1
        all_goals first | decide | assumption

theorem placeholder_image_shape (env : Env) (prompt output_path : String)
    (fs : FS) :
    ∃ c, placeholder_image env prompt output_path fs =
      (output_path, fileWrite fs output_path c) := by
  unfold placeholder_image
  by_cases hp : env.pillowAvailable
  · exact ⟨.pillowPlaceholder env.fontLoaded prompt, by simp [hp]⟩
  · exact ⟨.placeholderPng, by simp [hp]⟩

theorem generate_image_valid_eval (env : Env) (ps os : String)
    (dv : Option PyVal) (fs : FS)
    (hps : ¬ pyStrip ps = "") (hos : ¬ pyStrip os = "")
    (hdv : ¬ dv = some .nonStr) :
    (env.kandinsky = .producesImage ∧
      generate_image env (.str ps) (.str os) dv fs =
        .ok (resolvePath os,
          fileWrite fs (resolvePath os) (.kandinskyImage ps))) ∨
    (¬ env.kandinsky = .producesImage ∧
      generate_image env (.str ps) (.str os) dv fs =
        .ok (placeholder_image env ps (resolvePath os) fs)) := by
  cases dv with
  | none =>
      cases hk : env.kandinsky
      case producesImage =>
        exact Or.inl ⟨rfl,
          by simp [generate_image, generate_with_kandinsky, hps, hos, hk]⟩
      all_goals
        exact Or.inr ⟨by simp [hk],
          by simp [generate_image, generate_with_kandinsky, hps, hos, hk]⟩
  | some v =>
      cases v with
      | nonStr => exact absurd rfl hdv
      | str d =>
          cases hk : env.kandinsky
          case producesImage =>
            exact Or.inl ⟨rfl,
              by simp [generate_image, generate_with_kandinsky, hps, hos, hk]⟩
          all_goals
            exact Or.inr ⟨by simp [hk],
              by simp [generate_image, generate_with_kandinsky, hps, hos, hk]⟩

theorem find?_eq_none_of_all_exist (fs : FS) (l : List String)
    (h : ∀ q ∈ l, fileExists fs (resolvePath q) = true) :
    List.find? (fun p => !fileExists fs p) (List.map resolvePath l) = none := by
  rw [List.find?_eq_none]
  intro x hx
  rw [List.mem_map] at hx
  obtain ⟨q, hq, rfl⟩ := hx
  simp [h q hq]

theorem stitch_video_simulates (env : Env) (img0 : String)
    (rest : List String) (output : String) (fs : FS)
    (himg : ∀ q ∈ img0 :: rest, fileExists fs (resolvePath q) = true)
    (henc : env.ffmpegPresent = false ∨ env.ffmpegSucceeds = false) :
    stitch_video env (img0 :: rest) output fs =
      .ok (resolvePath output, fileWrite fs (resolvePath output)
        (.text (simulatedVideoText (resolvePath img0)))) := by
  have hfind := find?_eq_none_of_all_exist fs (img0 :: rest) himg
  simp only [stitch_video]
  rw [hfind]
  rcases henc with hff | hsu
  · simp [hff, simulate_video]
  · by_cases hff : env.ffmpegPresent
    · simp [hff, hsu, simulate_video]
    · simp [hff, simulate_video]

theorem generate_image_ok_shape (env : Env) (prompt output_path : PyVal)
    (device : Option PyVal) (fs : FS) (p : String) (fs' : FS)
    (h : generate_image env prompt output_path device fs = .ok (p, fs')) :
    ∃ c, fs' = fileWrite fs p c := by
  cases prompt with
  | nonStr => simp [generate_image] at h
  | str ps =>
    by_cases hps : pyStrip ps = ""
    · simp [generate_image, hps] at h
    · cases output_path with
      | nonStr => simp [generate_image, hps] at h
      | str os =>
        by_cases hos : pyStrip os = ""
        · simp [generate_image, hps, hos] at h
        · by_cases hdv : device = some .nonStr
          · subst hdv; simp [generate_image, hps, hos] at h
          · rcases generate_image_valid_eval env ps os device fs hps hos hdv with
              ⟨hk, heq⟩ | ⟨hk, heq⟩
            · rw [heq] at h
              simp only [Except.ok.injEq, Prod.mk.injEq] at h
              obtain ⟨h1, h2⟩ := h
              subst h1; subst h2
              exact ⟨_, rfl⟩
            · obtain ⟨c, hc⟩ := placeholder_image_shape env ps (resolvePath os) fs
              rw [heq, hc] at h
              simp only [Except.ok.injEq, Prod.mk.injEq] at h
              obtain ⟨h1, h2⟩ := h
              subst h1; subst h2
              exact ⟨c, rfl⟩

theorem stitch_video_singleton_eval (env : Env) (ip output : String) (fs : FS)
    (hip : fileExists fs ip = true) :
    ∃ c, stitch_video env [ip] output fs =
      .ok (resolvePath output, fileWrite fs (resolvePath output) c) := by
  by_cases hff : env.ffmpegPresent
  · by_cases hsu : env.ffmpegSucceeds
    · exact ⟨.realVideo [resolvePath ip],
        by simp [stitch_video, List.find?, hip, resolvePath, hff, hsu,
          simulate_video]⟩
    · exact ⟨.text (simulatedVideoText (resolvePath ip)),
        by simp [stitch_video, List.find?, hip, resolvePath, hff, hsu,
          simulate_video]⟩
  · exact ⟨.text (simulatedVideoText (resolvePath ip)),
      by simp [stitch_video, List.find?, hip, resolvePath, hff,
        simulate_video]⟩

theorem run_video_shape (env : Env) (ip : String) (fs : FS)
    (hip : fileExists fs ip = true) :
    ∃ c, run_video env ip fs = ("out.mp4", fileWrite fs "out.mp4" c) := by
  obtain ⟨c, hc⟩ := stitch_video_singleton_eval env ip "out.mp4" fs hip
  exact ⟨c, by simp [run_video, hc, resolvePath]⟩

theorem dictGet_simulate_post_success (platform text ip : String) :
    dictGet (simulate_post platform text ip) "success" = some (.bool true) := rfl

theorem post_to_facebook_success_key (env : Env) (text image_path : String)
    (fs : FS) :
    ∃ v, dictGet (post_to_facebook env text image_path fs).result "success" =
      some v := by
  unfold post_to_facebook
  by_cases hf : fileExists fs image_path
  · simp only [hf, Bool.not_true, reduceIte]
    by_cases ht : tokenConfigured (load_token env.fbPageToken)
    · simp only [ht, Bool.not_true, reduceIte]
      cases env.fbHttp with
      | transportError msg => exact ⟨.bool true, rfl⟩
      | response status body =>
          by_cases hst : status ≥ 400
          · simp only [hst, reduceIte]
            exact ⟨.bool true, rfl⟩
          · simp only [hst, reduceIte]
            cases body with
            | error rawText =>
                simpa using dictGet_setdefault
                  [("raw_response", Json.str rawText)] "success" (.bool true)
            | ok j =>
                cases j with
                | obj fields =>
                    simpa using dictGet_setdefault fields "success" (.bool true)
                | null => exact ⟨.bool false, rfl⟩
                | bool b => exact ⟨.bool false, rfl⟩
                | num n => exact ⟨.bool false, rfl⟩
                | str s => exact ⟨.bool false, rfl⟩
                | arr xs => exact ⟨.bool false, rfl⟩
    · simp only [ht, Bool.not_false, reduceIte]
      exact ⟨.bool true, rfl⟩
  · simp only [Bool.not_eq_true] at hf
    simp only [hf, Bool.not_false, reduceIte]
    exact ⟨.bool false, rfl⟩

theorem fallback_image_shape (env : Env) (path text : String) (fs : FS) :
    ∃ c, fallback_image env path text fs = (path, fileWrite fs path c) := by
  unfold fallback_image
  by_cases hp : env.pillowAvailable
  · exact ⟨.mainFallbackImage env.fontLoaded text, by simp [hp]⟩
  · exact ⟨.placeholderPng, by simp [hp]⟩

theorem run_prompt_ne_empty (env : Env) (topic : PyVal) :
    ¬ run_prompt env topic = "" := by
  unfold run_prompt
  cases h : make_prompt env topic with
  | ok pb =>
      obtain ⟨p, b⟩ := pb
      simpa using make_prompt_ok_ne_empty env topic p b h
  | error e =>
      show ¬ "Test caption" = ""
      decide

theorem run_image_shape (env : Env) (pt : String) (fs : FS) :
    ∃ p c, run_image env pt fs = (p, fileWrite fs p c) := by
  unfold run_image
  cases h : generate_image env (.str pt) (.str "out.png")
      (some (.str "auto")) fs with
  | ok pfs =>
      obtain ⟨p, fs'⟩ := pfs
      obtain ⟨c, rfl⟩ :=
        generate_image_ok_shape env (.str pt) (.str "out.png")
          (some (.str "auto")) fs p fs' h
      exact ⟨p, c, rfl⟩
  | error e =>
      obtain ⟨c, hc⟩ := fallback_image_shape env "out.png" pt fs
      exact ⟨"out.png", c, by simp [hc]⟩

theorem run_fields (env : Env) (topic : PyVal) (fs : FS) :
    run env topic fs =
      ({ success := pyTruthyOpt (dictGet
            ((post_to_facebook env (run_prompt env topic)
                (run_image env (run_prompt env topic) fs).1
                (run_video env (run_image env (run_prompt env topic) fs).1
                  (run_image env (run_prompt env topic) fs).2).2).result)
            "success"),
         topic := topic,
         prompt := run_prompt env topic,
         image_path := (run_image env (run_prompt env topic) fs).1,
         video_path := (run_video env (run_image env (run_prompt env topic) fs).1
            (run_image env (run_prompt env topic) fs).2).1,
         facebook_response := (post_to_facebook env (run_prompt env topic)
            (run_image env (run_prompt env topic) fs).1
            (run_video env (run_image env (run_prompt env topic) fs).1
              (run_image env (run_prompt env topic) fs).2).2).result,
         error := if pyTruthyOpt (dictGet
              ((post_to_facebook env (run_prompt env topic)
                  (run_image env (run_prompt env topic) fs).1
                  (run_video env (run_image env (run_prompt env topic) fs).1
                    (run_image env (run_prompt env topic) fs).2).2).result)
              "success") then none
            else some (dictGetD
              ((post_to_facebook env (run_prompt env topic)
                  (run_image env (run_prompt env topic) fs).1
                  (run_video env (run_image env (run_prompt env topic) fs).1
                    (run_image env (run_prompt env topic) fs).2).2).result)
              "error" (.str "Unknown error.")) },
       (run_video env (run_image env (run_prompt env topic) fs).1
         (run_image env (run_prompt env topic) fs).2).2) := rfl

theorem post_simulates_no_token (env : Env) (text ip : String) (fs : FS)
    (hf : fileExists fs ip = true)
    (ht : tokenConfigured (load_token env.fbPageToken) = false) :
    post_to_facebook env text ip fs =
      { result := simulate_post "facebook" text ip, networkCalled := false } := by
  simp [post_to_facebook, hf, ht]

/-! ## Claim theorems -/

/-- C3 counterexample: the claim allows `generate_image` to raise only
when the caption is not a non-empty string, but the code raises
`ValueError` on the caption `" "`, which is a non-empty string (with a
valid output path and the default device). -/
theorem C3_whitespace_caption_raises :
    ¬ (" " : String) = "" ∧
    generate_image envBare (.str " ") (.str "out.png") (some (.str "auto")) []
      = .error (.valueError "prompt must be a non-empty string.") := by
  exact ⟨by decide, rfl⟩

/-- C3 (amended): `generate_image` raises exactly for invalid input —
a non-string or trim-empty caption or output path, or a non-string
non-None device; on every valid input it returns the resolved output
path with an existing file there, and on any backend failure
(anything short of a successfully produced and saved Kandinsky image)
its result is exactly the placeholder generator's output at the same
output path. -/
theorem C3_generate_image_contract (env : Env) (prompt output_path : PyVal)
    (device : Option PyVal) (fs : FS) :
    (prompt = .nonStr ∨ output_path = .nonStr ∨ device = some .nonStr →
      ∃ e, generate_image env prompt output_path device fs = .error e) ∧
    (∀ ps os, prompt = .str ps → output_path = .str os →
      pyStrip ps = "" ∨ pyStrip os = "" →
      ∃ e, generate_image env prompt output_path device fs = .error e) ∧
    (∀ ps os, prompt = .str ps → output_path = .str os →
      ¬ pyStrip ps = "" → ¬ pyStrip os = "" → ¬ device = some .nonStr →
      (∃ fs', generate_image env prompt output_path device fs =
          .ok (resolvePath os, fs') ∧
        fileExists fs' (resolvePath os) = true) ∧
      (¬ env.kandinsky = .producesImage →
        generate_image env prompt output_path device fs =
          .ok (placeholder_image env ps (resolvePath os) fs))) := by
  refine ⟨?_, ?_, ?_⟩
  · intro hbad
    cases prompt with
    | nonStr => exact ⟨.valueError "prompt must be a non-empty string.", rfl⟩
    | str ps =>
        by_cases hps : pyStrip ps = ""
        · exact ⟨.valueError "prompt must be a non-empty string.",
            by simp [generate_image, hps]⟩
        · cases output_path with
          | nonStr =>
              exact ⟨.valueError "output_path must be a non-empty string path.",
                by simp [generate_image, hps]⟩
          | str os =>
              by_cases hos : pyStrip os = ""
              · exact ⟨.valueError "output_path must be a non-empty string path.",
                  by simp [generate_image, hps, hos]⟩
              · rcases hbad with h | h | h
                · exact absurd h (by simp)
                · exact absurd h (by simp)
                · subst h
                  exact ⟨.valueError "device must be a string identifier or None.",
                    by simp [generate_image, hps, hos]⟩
  · rintro ps os rfl rfl hempty
    rcases hempty with hps | hos
    · exact ⟨.valueError "prompt must be a non-empty string.",
        by simp [generate_image, hps]⟩
    · by_cases hps : pyStrip ps = ""
      · exact ⟨.valueError "prompt must be a non-empty string.",
          by simp [generate_image, hps]⟩
      · exact ⟨.valueError "output_path must be a non-empty string path.",
          by simp [generate_image, hps, hos]⟩
  · rintro ps os rfl rfl hps hos hdv
    rcases generate_image_valid_eval env ps os device fs hps hos hdv with
      ⟨hk, heq⟩ | ⟨hk, heq⟩
    · exact ⟨⟨_, heq, fileExists_fileWrite_self ..⟩,
        fun hcontra => absurd hk hcontra⟩
    · obtain ⟨c, hc⟩ := placeholder_image_shape env ps (resolvePath os) fs
      refine ⟨⟨fileWrite fs (resolvePath os) c, ?_,
        fileExists_fileWrite_self ..⟩, fun _ => heq⟩
      rw [heq, hc]

/-- C3 witness: a non-string caption is rejected, and a valid caption
with no Kandinsky backend yields the placeholder file at the output
path. -/
theorem C3_generate_image_contract_witness :
    (∃ e, generate_image envBare .nonStr (.str "out.png") none [] = .error e) ∧
    (∃ fs', generate_image envBare (.str "cap") (.str "out.png") none [] =
        .ok ("out.png", fs') ∧ fileExists fs' "out.png" = true) := by
  constructor
  · exact (C3_generate_image_contract envBare .nonStr (.str "out.png")
      none []).1 (Or.inl rfl)
  · exact ((C3_generate_image_contract envBare (.str "cap") (.str "out.png")
      none []).2.2 "cap" "out.png" rfl rfl (by decide) (by decide) (by simp)).1

/-- C4: `make_prompt` fails for a non-string topic and for a topic that
strips to the empty string; for a valid topic with no completion
credential configured it returns the fixed fallback string, without
raising and without issuing a remote call. -/
theorem C4_make_prompt_contract (env : Env) (topic : PyVal) :
    (topic = .nonStr → ∃ e, make_prompt env topic = .error e) ∧
    (∀ s, topic = .str s → pyStrip s = "" →
      ∃ e, make_prompt env topic = .error e) ∧
    (∀ s, topic = .str s → ¬ pyStrip s = "" → env.openaiApiKey = none →
      make_prompt env topic = .ok (DEFAULT_FALLBACK, false)) := by
  refine ⟨?_, ?_, ?_⟩
  · rintro rfl
    exact ⟨.typeError "Topic must be a string.", rfl⟩
  · rintro s rfl hs
    exact ⟨.valueError "Topic cannot be empty.", by simp [make_prompt, hs]⟩
  · rintro s rfl hs hk
    simp [make_prompt, hs, CLIENT, hk]

/-- C4 witness: a whitespace-only topic fails; `"  shoes  "` with no
credential gives the fallback with no remote call. -/
theorem C4_make_prompt_contract_witness :
    (∃ e, make_prompt envBare (.str "   ") = .error e) ∧
    make_prompt envBare (.str "  shoes  ") = .ok (DEFAULT_FALLBACK, false) := by
  constructor
  · exact (C4_make_prompt_contract envBare (.str "   ")).2.1 "   " rfl (by decide)
  · exact (C4_make_prompt_contract envBare (.str "  shoes  ")).2.2
      "  shoes  " rfl (by decide) rfl

/-- C5: under the lenient policy, for a non-empty list of existing
images, `stitch_video` with the encoder absent (or exiting non-zero)
returns the output path of an existing file whose content is the fixed
simulated-clip sentinel text, which contains the first source image's
path. -/
theorem C5_stitch_video_lenient (env : Env) (img0 : String)
    (rest : List String) (output : String) (fs : FS)
    (himg : ∀ q ∈ img0 :: rest, fileExists fs (resolvePath q) = true)
    (henc : env.ffmpegPresent = false ∨ env.ffmpegSucceeds = false) :
    ∃ fs', stitch_video env (img0 :: rest) output fs =
        .ok (resolvePath output, fs') ∧
      fileExists fs' (resolvePath output) = true ∧
      fileContent fs' (resolvePath output) =
        some (.text (simulatedVideoText (resolvePath img0))) ∧
      simulatedVideoText (resolvePath img0) =
        "Simulated video output. Install ffmpeg to generate real footage from the source image.\nSource image: "
          ++ (resolvePath img0 ++ "\n") := by
  refine ⟨_, stitch_video_simulates env img0 rest output fs himg henc,
    fileExists_fileWrite_self .., fileContent_fileWrite_self .., ?_⟩
  rfl

/-- C5 witness: a single existing PNG, no encoder binary. -/
theorem C5_stitch_video_lenient_witness :
    ∃ fs', stitch_video envBare ["img.png"] "out.mp4"
        [("img.png", FileContent.placeholderPng)] = .ok ("out.mp4", fs') ∧
      fileExists fs' "out.mp4" = true ∧
      fileContent fs' "out.mp4" =
        some (.text (simulatedVideoText "img.png")) := by
  obtain ⟨fs', h1, h2, h3, -⟩ := C5_stitch_video_lenient envBare "img.png" []
    "out.mp4" [("img.png", FileContent.placeholderPng)] (by decide) (Or.inl rfl)
  exact ⟨fs', h1, h2, h3⟩

/-- C6 counterexample: the claim says that for a sub-400 response with a
mapping body the returned record contains `success=true`; but a body of
`{"success": false}` is kept as is by `setdefault`, so the returned
record carries `success=false`. -/
theorem C6_setdefault_keeps_false_success :
    dictGet (post_to_facebook envSuccessFalse "caption" "img.png"
        [("img.png", FileContent.placeholderPng)]).result "success" =
      some (.bool false) ∧
    ¬ (Json.bool false) = (Json.bool true) := by
  exact ⟨rfl, by simp⟩

/-- C6 (amended): for a sub-400 response, if the parsed body is a
mapping it is returned with a `success` field ensured present —
set to `true` only when the payload lacks one; if the body is not a
mapping, the result is `success=false` with the fixed
"Unexpected response format" error and the body echoed. -/
theorem C6_post_success_parsing (env : Env) (text ip : String) (fs : FS)
    (status : Nat) (j : Json)
    (hf : fileExists fs ip = true)
    (ht : tokenConfigured (load_token env.fbPageToken) = true)
    (hh : env.fbHttp = .response status (.ok j))
    (hst : status < 400) :
    (∀ fields, j = .obj fields →
      (post_to_facebook env text ip fs).result =
        setdefault fields "success" (.bool true) ∧
      (dictGet fields "success" = none →
        dictGet (post_to_facebook env text ip fs).result "success" =
          some (.bool true))) ∧
    (jsonIsObj j = false →
      (post_to_facebook env text ip fs).result =
        [("success", .bool false),
         ("error", .str "Unexpected response format from Facebook API."),
         ("response", j)]) := by
  have h400 : ¬ status ≥ 400 := by omega
  constructor
  · rintro fields rfl
    have hres : (post_to_facebook env text ip fs).result =
        setdefault fields "success" (.bool true) := by
      simp [post_to_facebook, hf, ht, hh, h400]
    refine ⟨hres, fun hnone => ?_⟩
    rw [hres]
    simp only [setdefault, hnone]
    exact dictGet_append_none fields "success" (.bool true) hnone
  · intro hobj
    cases j with
    | obj fields => simp [jsonIsObj] at hobj
    | null => simp [post_to_facebook, hf, ht, hh, h400]
    | bool b => simp [post_to_facebook, hf, ht, hh, h400]
    | num n => simp [post_to_facebook, hf, ht, hh, h400]
    | str s2 => simp [post_to_facebook, hf, ht, hh, h400]
    | arr xs => simp [post_to_facebook, hf, ht, hh, h400]

/-- C6 witness: a 200 response whose mapping body lacks `success` gets
`success=true` appended. -/
theorem C6_post_success_parsing_witness :
    (post_to_facebook envPayloadId "cap" "img.png"
        [("img.png", FileContent.placeholderPng)]).result =
      setdefault [("id", Json.num 7)] "success" (.bool true) ∧
    dictGet (post_to_facebook envPayloadId "cap" "img.png"
        [("img.png", FileContent.placeholderPng)]).result "success" =
      some (.bool true) := by
  have h := (C6_post_success_parsing envPayloadId "cap" "img.png"
    [("img.png", FileContent.placeholderPng)] 200 (.obj [("id", Json.num 7)])
    rfl rfl rfl (by omega)).1 [("id", Json.num 7)] rfl
  exact ⟨h.1, h.2 rfl⟩

/-- C7: when the image file does not exist, `post_to_facebook` fails
fast: `success=false` with a descriptive error naming the path, and no
network call is attempted. -/
theorem C7_post_missing_file (env : Env) (text image_path : String)
    (fs : FS) (hf : fileExists fs image_path = false) :
    (post_to_facebook env text image_path fs).result =
      [("success", .bool false),
       ("error", .str ("Image file not found at \x27" ++ image_path ++ "\x27."))] ∧
    dictGet (post_to_facebook env text image_path fs).result "success" =
      some (.bool false) ∧
    (post_to_facebook env text image_path fs).networkCalled = false := by
  refine ⟨?_, ?_, ?_⟩ <;> simp [post_to_facebook, hf, dictGet]

/-- C7 witness: a missing path on an empty file system. -/
theorem C7_post_missing_file_witness :
    dictGet (post_to_facebook envBare "cap" "missing.png" []).result
      "success" = some (.bool false) ∧
    (post_to_facebook envBare "cap" "missing.png" []).networkCalled = false := by
  have h := C7_post_missing_file envBare "cap" "missing.png" [] rfl
  exact ⟨h.2.1, h.2.2⟩

/-- C8: with an existing image and no publish credential configured,
`post_to_facebook` returns the simulated success payload — `success=true`
and `simulated=true`, echoing the caption and the image path — and
performs no network call. -/
theorem C8_post_simulates_without_credential (env : Env)
    (text image_path : String) (fs : FS)
    (hf : fileExists fs image_path = true)
    (ht : env.fbPageToken = none) :
    (post_to_facebook env text image_path fs).result =
      simulate_post "facebook" text image_path ∧
    dictGet (post_to_facebook env text image_path fs).result "success" =
      some (.bool true) ∧
    dictGet (post_to_facebook env text image_path fs).result "simulated" =
      some (.bool true) ∧
    dictGet (post_to_facebook env text image_path fs).result "text" =
      some (.str text) ∧
    dictGet (post_to_facebook env text image_path fs).result "image_path" =
      some (.str image_path) ∧
    (post_to_facebook env text image_path fs).networkCalled = false := by
  have h := post_simulates_no_token env text image_path fs hf
    (by simp [load_token, tokenConfigured, ht])
  rw [h]
  exact ⟨rfl, rfl, rfl, rfl, rfl, rfl⟩

/-- C8 witness: an existing image on a token-free environment. -/
theorem C8_post_simulates_without_credential_witness :
    (post_to_facebook envBare "cap" "img.png"
        [("img.png", FileContent.placeholderPng)]).result =
      simulate_post "facebook" "cap" "img.png" ∧
    (post_to_facebook envBare "cap" "img.png"
        [("img.png", FileContent.placeholderPng)]).networkCalled = false := by
  have h := C8_post_simulates_without_credential envBare "cap" "img.png"
    [("img.png", FileContent.placeholderPng)] rfl rfl
  exact ⟨h.1, h.2.2.2.2.2⟩

/-- C9: with no diffusion backend available, two consecutive
`generate_image` calls with the same caption and output path both
succeed at the same path and leave byte-identical placeholder contents
there. -/
theorem C9_placeholder_idempotent (env : Env) (caption opath : String)
    (fs : FS) (hc : ¬ pyStrip caption = "") (ho : ¬ pyStrip opath = "")
    (hk : env.kandinsky = .unavailable) :
    ∃ p c fs1 fs2,
      generate_image env (.str caption) (.str opath)
        (some (.str "auto")) fs = .ok (p, fs1) ∧
      generate_image env (.str caption) (.str opath)
        (some (.str "auto")) fs1 = .ok (p, fs2) ∧
      fileContent fs1 p = some c ∧
      fileContent fs2 p = some c := by
  by_cases hp : env.pillowAvailable
  · refine ⟨resolvePath opath, .pillowPlaceholder env.fontLoaded caption,
      fileWrite fs (resolvePath opath)
        (.pillowPlaceholder env.fontLoaded caption),
      fileWrite (fileWrite fs (resolvePath opath)
        (.pillowPlaceholder env.fontLoaded caption)) (resolvePath opath)
        (.pillowPlaceholder env.fontLoaded caption),
      ?_, ?_, ?_, ?_⟩
    · simp [generate_image, generate_with_kandinsky, placeholder_image,
        hc, ho, hk, hp]
    · simp [generate_image, generate_with_kandinsky, placeholder_image,
        hc, ho, hk, hp]
    · exact fileContent_fileWrite_self ..
    · exact fileContent_fileWrite_self ..
  · refine ⟨resolvePath opath, .placeholderPng,
      fileWrite fs (resolvePath opath) .placeholderPng,
      fileWrite (fileWrite fs (resolvePath opath) .placeholderPng)
        (resolvePath opath) .placeholderPng,
      ?_, ?_, ?_, ?_⟩
    · simp [generate_image, generate_with_kandinsky, placeholder_image,
        hc, ho, hk, hp]
    · simp [generate_image, generate_with_kandinsky, placeholder_image,
        hc, ho, hk, hp]
    · exact fileContent_fileWrite_self ..
    · exact fileContent_fileWrite_self ..

/-- C9 witness: two runs at `"out.png"` on an empty file system. -/
theorem C9_placeholder_idempotent_witness :
    ∃ p c fs1 fs2,
      generate_image envBare (.str "cap") (.str "out.png")
        (some (.str "auto")) [] = .ok (p, fs1) ∧
      generate_image envBare (.str "cap") (.str "out.png")
        (some (.str "auto")) fs1 = .ok (p, fs2) ∧
      fileContent fs1 p = some c ∧
      fileContent fs2 p = some c :=
  C9_placeholder_idempotent envBare "cap" "out.png" []
    (by decide) (by decide) rfl

theorem run_decomposition (env : Env) (topic : PyVal) (fs : FS) :
    ∃ ip c1 c2,
      (run env topic fs).1.prompt = run_prompt env topic ∧
      (run env topic fs).1.image_path = ip ∧
      (run env topic fs).1.video_path = "out.mp4" ∧
      (run env topic fs).2 = fileWrite (fileWrite fs ip c1) "out.mp4" c2 ∧
      (run env topic fs).1.facebook_response =
        (post_to_facebook env (run_prompt env topic) ip
          (fileWrite (fileWrite fs ip c1) "out.mp4" c2)).result := by
  obtain ⟨ip, c1, hi⟩ := run_image_shape env (run_prompt env topic) fs
  obtain ⟨c2, hv⟩ := run_video_shape env ip (fileWrite fs ip c1)
    (fileExists_fileWrite_self fs ip c1)
  refine ⟨ip, c1, c2, rfl, ?_, ?_, ?_, ?_⟩
  · show (run_image env (run_prompt env topic) fs).1 = ip
    rw [hi]
  · show (run_video env (run_image env (run_prompt env topic) fs).1
        (run_image env (run_prompt env topic) fs).2).1 = "out.mp4"
    simp only [hi, hv]
  · show (run_video env (run_image env (run_prompt env topic) fs).1
        (run_image env (run_prompt env topic) fs).2).2 =
      fileWrite (fileWrite fs ip c1) "out.mp4" c2
    simp only [hi, hv]
  · show (post_to_facebook env (run_prompt env topic)
        (run_image env (run_prompt env topic) fs).1
        (run_video env (run_image env (run_prompt env topic) fs).1
          (run_image env (run_prompt env topic) fs).2).2).result =
      (post_to_facebook env (run_prompt env topic) ip
        (fileWrite (fileWrite fs ip c1) "out.mp4" c2)).result
    simp only [hi, hv]

/-- C1 counterexample: with a configured publish token and a 200 reply
whose mapping body is `{"success": 1}`, the publish result that `run`
returns carries the non-boolean `success` value `1`, so the claim's
"boolean `success` field" fails. -/
theorem C1_publish_success_not_boolean :
    dictGet ((run envSuccessNum (.str "shoes") []).1.facebook_response)
      "success" = some (.num 1) ∧
    jsonIsBool (Json.num 1) = false := by
  exact ⟨rfl, rfl⟩

/-- C1 (amended): for every non-empty topic and every environment,
`run` returns a record with a non-empty caption (`prompt`), an image
path and a video path that exist on the returned file system, and a
publish result that always carries a `success` field; that field is the
boolean `true` whenever no publish credential is configured, but a real
remote mapping payload may supply a non-boolean `success` value. -/
theorem C1_run_wellformed (env : Env) (s : String) (fs : FS)
    (_hs : ¬ s = "") :
    ¬ (run env (.str s) fs).1.prompt = "" ∧
    fileExists (run env (.str s) fs).2
      ((run env (.str s) fs).1.image_path) = true ∧
    fileExists (run env (.str s) fs).2
      ((run env (.str s) fs).1.video_path) = true ∧
    (∃ v, dictGet ((run env (.str s) fs).1.facebook_response) "success" =
      some v) ∧
    (tokenConfigured (load_token env.fbPageToken) = false →
      dictGet ((run env (.str s) fs).1.facebook_response) "success" =
        some (.bool true)) := by
  obtain ⟨ip, c1, c2, hprompt, hip, hvp, hfs2, hfb⟩ :=
    run_decomposition env (.str s) fs
  refine ⟨?_, ?_, ?_, ?_, ?_⟩
  · rw [hprompt]
    exact run_prompt_ne_empty env (.str s)
  · rw [hfs2, hip]
    exact fileExists_fileWrite_mono _ _ _ _ (fileExists_fileWrite_self ..)
  · rw [hfs2, hvp]
    exact fileExists_fileWrite_self ..
  · rw [hfb]
    exact post_to_facebook_success_key ..
  · intro ht
    rw [hfb, post_simulates_no_token env (run_prompt env (.str s)) ip
      (fileWrite (fileWrite fs ip c1) "out.mp4" c2)
      (fileExists_fileWrite_mono _ _ _ _ (fileExists_fileWrite_self ..)) ht]
    exact dictGet_simulate_post_success ..

/-- C1 witness: the fully offline environment on the topic `"shoes"`. -/
theorem C1_run_wellformed_witness :
    ¬ (run envBare (.str "shoes") []).1.prompt = "" ∧
    fileExists (run envBare (.str "shoes") []).2
      ((run envBare (.str "shoes") []).1.image_path) = true ∧
    fileExists (run envBare (.str "shoes") []).2
      ((run envBare (.str "shoes") []).1.video_path) = true ∧
    (∃ v, dictGet ((run envBare (.str "shoes") []).1.facebook_response)
      "success" = some v) := by
  obtain ⟨h1, h2, h3, h4, -⟩ :=
    C1_run_wellformed envBare "shoes" [] (by decide)
  exact ⟨h1, h2, h3, h4⟩

/-- C2 counterexample: with a 200 reply carrying `{"success": "no"}`,
the publish result's `success` value is the string `"no"` — not the
boolean `true` — yet the overall `success` of the pipeline is `true`,
because the orchestrator applies Python truthiness to it.  This breaks
the claimed "if and only if the Publishing Stage reports
`success=true`". -/
theorem C2_truthy_success_counterexample :
    (run envSuccessStr (.str "shoes") []).1.success = true ∧
    dictGet ((run envSuccessStr (.str "shoes") []).1.facebook_response)
      "success" = some (.str "no") ∧
    ¬ (Json.str "no") = (Json.bool true) := by
  exact ⟨rfl, rfl, fun h => Json.noConfusion h⟩

/-- C2 (amended): the overall `success` of `run` equals the Python
truthiness of the `success` value of the publish result it returns (a
missing key counting as falsy); in particular it is computed from the
publish result alone, and no other stage's outcome enters it. -/
theorem C2_success_mirrors_publish_truthiness (env : Env) (topic : PyVal)
    (fs : FS) :
    (run env topic fs).1.success =
      pyTruthyOpt (dictGet ((run env topic fs).1.facebook_response)
        "success") ∧
    ((run env topic fs).1.success = true ↔
      pyTruthyOpt (dictGet ((run env topic fs).1.facebook_response)
        "success") = true) :=
  ⟨rfl, Iff.rfl⟩

/-- C10: whenever the caption stage raises (in particular for an empty
or whitespace-only topic), `run` does not propagate the exception: the
caption falls back to the fixed `"Test caption"`, the remaining stages
still run, and the returned record is complete — existing image and
video artifacts and a publish result with a `success` field. -/
theorem C10_run_swallows_caption_error (env : Env) (topic : PyVal)
    (fs : FS) (herr : ∃ e, make_prompt env topic = .error e) :
    (run env topic fs).1.prompt = "Test caption" ∧
    fileExists (run env topic fs).2
      ((run env topic fs).1.image_path) = true ∧
    fileExists (run env topic fs).2
      ((run env topic fs).1.video_path) = true ∧
    ∃ v, dictGet ((run env topic fs).1.facebook_response) "success" =
      some v := by
  obtain ⟨e, he⟩ := herr
  obtain ⟨ip, c1, c2, hprompt, hip, hvp, hfs2, hfb⟩ :=
    run_decomposition env topic fs
  refine ⟨?_, ?_, ?_, ?_⟩
  · rw [hprompt]
    simp [run_prompt, he]
  · rw [hfs2, hip]
    exact fileExists_fileWrite_mono _ _ _ _ (fileExists_fileWrite_self ..)
  · rw [hfs2, hvp]
    exact fileExists_fileWrite_self ..
  · rw [hfb]
    exact post_to_facebook_success_key ..

/-- C10 witness: the empty topic makes `make_prompt` raise, and `run`
still completes with the fallback caption. -/
theorem C10_run_swallows_caption_error_witness :
    (run envBare (.str "") []).1.prompt = "Test caption" ∧
    fileExists (run envBare (.str "") []).2
      ((run envBare (.str "") []).1.image_path) = true := by
  have h := C10_run_swallows_caption_error envBare (.str "") []
    ⟨.valueError "Topic cannot be empty.", rfl⟩
  exact ⟨h.1, h.2.1⟩
